import Mathlib

/-!
Verification development for the GardenLightsTransmitter sketch
(src/GardenLightsTransmitter.ino).

The sketch is embedded shallowly: the global program state (the shared
16-byte command buffer, the two last-reported pot values, the two button
debouncers, the two LED lines) is an explicit `ProgState`; the side effects
of `digitalWrite`, `delay` and `RHReliableDatagram::sendtoWait` are recorded
in an explicit effect trace; the outcome of each `sendtoWait` call is taken
from an external oracle indexed by the number of calls made so far, so that
every possible behaviour of the radio collaborator is covered.

`snprintf(buf, 6, "%5d", v)` and `snprintf(buf, 6, "%5s", t)` are modelled
byte-for-byte: five right-justified space-padded ASCII characters followed
by a NUL terminator, written at the given offset of the buffer.
-/

namespace GardenLights

/-! ### Byte-level model of the snprintf formatting used by the sketch -/

/-- ASCII decimal digits of a natural number, most significant first.
Structural fuel recursion so that the kernel can evaluate it. -/
def natToDigitsAux : Nat → Nat → List Nat
  | 0, _ => []
  | fuel + 1, n => if n < 10 then [n + 48] else natToDigitsAux fuel (n / 10) ++ [n % 10 + 48]

def natToDigits (n : Nat) : List Nat := natToDigitsAux (n + 1) n

def strBytes (s : String) : List Nat := s.toList.map Char.toNat

/-- The five bytes produced by `"%5d"` for an `int` value: decimal digits
(with a leading `-` for negatives), right-justified in a five-character
field, space-padded; wider renderings are truncated to the first five
characters exactly as `snprintf` with size 6 does. -/
def fmt5i (v : Int) : List Nat :=
  let ds := if v < 0 then 45 :: natToDigits v.natAbs else natToDigits v.natAbs
  (List.replicate (5 - ds.length) 32 ++ ds).take 5

/-- The five bytes produced by `"%5s"` for a string argument. -/
def fmt5s (s : String) : List Nat :=
  (List.replicate (5 - (strBytes s).length) 32 ++ strBytes s).take 5

/-- Overwrite `bs` into `buf` starting at offset `off` (the in-buffer effect
of one `snprintf` call, whose output `bs` includes the NUL terminator). -/
def writeBytes (buf : List Nat) (off : Nat) (bs : List Nat) : List Nat :=
  buf.take off ++ bs ++ buf.drop (off + bs.length)

/-! ### Compile-time constants of the sketch -/

def TRANSMITTER_ADDRESS : Nat := 1
def RECEIVER_ADDRESS : Nat := 2
def GREEN_LED_PIN : Nat := 6
def ORANGE_LED_PIN : Nat := 7
def MODE_TEXT : String := "MODE "
def POTS_TEXT : String := "POTS "
def CHANNEL_OFFSET : Nat := 5
def VALUE_OFFSET : Nat := 10
def COMMAND_BUF_LEN : Nat := 16
def POTS_EPS : Int := 4

/-- C `abs` on `int`. -/
def cAbs (x : Int) : Int := if x < 0 then -x else x

/-! ### The Bounce2 button debouncer -/

def DEBOUNCE_INTERVAL : Nat := 10

structure DebState where
  stable : Bool
  candidate : Bool
  count : Nat
deriving Repr, DecidableEq

/-- Modelled from the spec: the `Bounce` debouncer of the external Bounce2
library (attached with `interval(10)`; the library source is not part of
this repository).  Per the spec, a candidate raw level change is accepted
as the new stable level only after it has been observed continuously for
the ten-unit stabilization interval, and the `fell` flag (the returned
`Bool`) is raised exactly on an accepted transition to the LOW (pressed)
level, never on release and never while unstable.  One call models one
`update()` poll, one time unit apart. -/
def debStep (s : DebState) (raw : Bool) : DebState × Bool :=
  if raw = s.candidate then
    let cnt := s.count + 1
    if DEBOUNCE_INTERVAL ≤ cnt ∧ raw ≠ s.stable then
      (⟨raw, raw, cnt⟩, !raw)
    else
      (⟨s.stable, s.candidate, cnt⟩, false)
  else
    (⟨s.stable, raw, 1⟩, false)

/-- Debouncer state at startup: stable released (HIGH, because of the
internal pull-up). -/
def debInit : DebState := ⟨true, true, 0⟩

/-- Run the debouncer over a trace of raw samples, counting the `fell`
events raised. -/
def debRun (s : DebState) : List Bool → DebState × Nat
  | [] => (s, 0)
  | raw :: rest =>
    let p := debStep s raw
    let q := debRun p.1 rest
    (q.1, (if p.2 then 1 else 0) + q.2)

/-! ### Program state and observable effects -/

structure SendRecord where
  frame : List Nat
  len : Nat
  dest : Nat
deriving Repr, DecidableEq

inductive Eff where
  | dwrite (pin : Nat) (level : Bool)
  | delayMs (ms : Nat)
  | radioSend (frame : List Nat) (len : Nat) (dest : Nat) (ok : Bool)
deriving Repr, DecidableEq

structure ProgState where
  command_buf : List Nat
  channel_one_pot_value : Int
  channel_two_pot_value : Int
  deb1 : DebState
  deb2 : DebState
  green : Bool
  orange : Bool
  trace : List Eff
  sends : List SendRecord
deriving Repr, DecidableEq

def digitalWrite (s : ProgState) (pin : Nat) (level : Bool) : ProgState :=
  { s with
    green := if pin = GREEN_LED_PIN then level else s.green
    orange := if pin = ORANGE_LED_PIN then level else s.orange
    trace := s.trace ++ [Eff.dwrite pin level] }

def delay (s : ProgState) (ms : Nat) : ProgState :=
  { s with trace := s.trace ++ [Eff.delayMs ms] }

/-- `manager.sendtoWait(frame, len, dest)`: one blocking
send-and-await-acknowledgment call of the external RHReliableDatagram
collaborator.  Its outcome is supplied by the oracle, indexed by how many
calls have been made so far. -/
def sendtoWait (oracle : Nat → Bool) (s : ProgState) (frame : List Nat) (len dest : Nat) :
    ProgState × Bool :=
  let ok := oracle s.sends.length
  ({ s with
      sends := s.sends ++ [⟨frame, len, dest⟩]
      trace := s.trace ++ [Eff.radioSend frame len dest ok] }, ok)

/-- `sendCommand` (lines 187-216): one `sendtoWait` call on the shared
buffer, then — only when `flash_led` — a 200 ms green pulse on success or a
200 ms orange pulse on failure, and finally both LED lines driven LOW. -/
def sendCommand (oracle : Nat → Bool) (s : ProgState) (flash_led : Bool) : ProgState :=
  let p := sendtoWait oracle s s.command_buf COMMAND_BUF_LEN RECEIVER_ADDRESS
  let s1 := p.1
  let s2 :=
    if p.2 then
      if flash_led then
        delay (digitalWrite (digitalWrite s1 GREEN_LED_PIN true) ORANGE_LED_PIN false) 200
      else s1
    else
      if flash_led then
        delay (digitalWrite (digitalWrite s1 GREEN_LED_PIN false) ORANGE_LED_PIN true) 200
      else s1
  if flash_led then
    digitalWrite (digitalWrite s2 GREEN_LED_PIN false) ORANGE_LED_PIN false
  else s2

/-- The two `snprintf` calls of `sendButton` on the shared buffer. -/
def modeFill (buf : List Nat) (channel : Int) : List Nat :=
  writeBytes (writeBytes buf 0 (fmt5s MODE_TEXT ++ [0])) CHANNEL_OFFSET (fmt5i channel ++ [0])

/-- The three `snprintf` calls of `sendPots` on the shared buffer. -/
def potsFill (buf : List Nat) (channel value : Int) : List Nat :=
  writeBytes
    (writeBytes (writeBytes buf 0 (fmt5s POTS_TEXT ++ [0])) CHANNEL_OFFSET (fmt5i channel ++ [0]))
    VALUE_OFFSET (fmt5i value ++ [0])

/-- `sendButton` (lines 172-177). -/
def sendButton (oracle : Nat → Bool) (s : ProgState) (channel : Int) : ProgState :=
  sendCommand oracle { s with command_buf := modeFill s.command_buf channel } true

/-- `sendPots` (lines 179-185); `flash_led` keeps its default `false`. -/
def sendPots (oracle : Nat → Bool) (s : ProgState) (channel value : Int) : ProgState :=
  sendCommand oracle { s with command_buf := potsFill s.command_buf channel value } false

/-- Raw hardware samples of one polling cycle: the two button pin levels
(HIGH = `true`) and the two `analogRead` pot values. -/
structure LoopInputs where
  btn1 : Bool
  btn2 : Bool
  read1 : Int
  read2 : Int
deriving Repr, DecidableEq

/-- `loop` (lines 141-169): update both debouncers, send a MODE command on
each `fell` edge, then poll both pots and send a POTS command when the
reading moved by more than `POTS_EPS` from the last reported value (which
is updated first and then passed as the value sent). -/
def loopStep (oracle : Nat → Bool) (s : ProgState) (inp : LoopInputs) : ProgState :=
  let u1 := debStep s.deb1 inp.btn1
  let u2 := debStep s.deb2 inp.btn2
  let s := { s with deb1 := u1.1, deb2 := u2.1 }
  let s := if u1.2 then sendButton oracle s 1 else s
  let s := if u2.2 then sendButton oracle s 2 else s
  let val := inp.read1
  let s :=
    if POTS_EPS < cAbs (val - s.channel_one_pot_value) then
      let s := { s with channel_one_pot_value := val }
      sendPots oracle s 1 s.channel_one_pot_value
    else s
  let val := inp.read2
  let s :=
    if POTS_EPS < cAbs (val - s.channel_two_pot_value) then
      let s := { s with channel_two_pot_value := val }
      sendPots oracle s 2 s.channel_two_pot_value
    else s
  s

/-- `setup` (lines 78-136): if `manager.init()` or `driver.setRF(...)`
fails, the sketch spins forever in `while (true) delay(1000);` — modelled
as `none` (the loop is never reached).  Otherwise the globals are
initialized: the zero-initialized command buffer, the two pot baselines
from the first `analogRead`, the debouncers attached released, and the
startup LED dance ending with both lines LOW. -/
def setup (initOk setRFOk : Bool) (read1 read2 : Int) : Option ProgState :=
  if !initOk then none
  else if !setRFOk then none
  else
    let s : ProgState :=
      { command_buf := List.replicate COMMAND_BUF_LEN 0
        channel_one_pot_value := read1
        channel_two_pot_value := read2
        deb1 := debInit
        deb2 := debInit
        green := false
        orange := false
        trace := []
        sends := [] }
    let s := digitalWrite s GREEN_LED_PIN false
    let s := digitalWrite s ORANGE_LED_PIN true
    let s := delay s 1000
    let s := digitalWrite s GREEN_LED_PIN true
    let s := digitalWrite s ORANGE_LED_PIN false
    let s := delay s 1000
    let s := digitalWrite s GREEN_LED_PIN false
    let s := digitalWrite s ORANGE_LED_PIN false
    let s := delay s 1000
    some s

/-- The whole device: `setup` once, then `loop` once per element of
`inputs`.  `none` means the startup failure spin was entered and the main
loop never ran. -/
def runDevice (initOk setRFOk : Bool) (r1 r2 : Int) (oracle : Nat → Bool)
    (inputs : List LoopInputs) : Option ProgState :=
  match setup initOk setRFOk r1 r2 with
  | none => none
  | some s => some (inputs.foldl (loopStep oracle) s)

/-- All frames ever handed to `sendtoWait` by a device run (empty when the
startup failure spin was entered). -/
def deviceSends (initOk setRFOk : Bool) (r1 r2 : Int) (oracle : Nat → Bool)
    (inputs : List LoopInputs) : List SendRecord :=
  match runDevice initOk setRFOk r1 r2 oracle inputs with
  | none => []
  | some s => s.sends

/-! ### Derived frame descriptions -/

/-- The 16 bytes `sendButton channel` leaves in the buffer and hands to the
transport: `"MODE "`, the channel right-justified in five characters, the
NUL terminator of the channel field at offset 10, and the five stale bytes
the buffer previously held at offsets 11-15. -/
def modeFrame (channel : Int) (tail : List Nat) : List Nat :=
  fmt5s MODE_TEXT ++ fmt5i channel ++ 0 :: tail

/-- The 16 bytes `sendPots channel value` hands to the transport. -/
def potsFrame (channel value : Int) : List Nat :=
  fmt5s POTS_TEXT ++ fmt5i channel ++ fmt5i value ++ [0]

/-- Does a send record carry a POTS frame for channel 1? -/
def isPots1 (r : SendRecord) : Bool :=
  decide (r.frame.take 5 = fmt5s POTS_TEXT) && decide ((r.frame.drop 5).take 5 = fmt5i 1)

/-- Does a send record carry a POTS frame for channel 2? -/
def isPots2 (r : SendRecord) : Bool :=
  decide (r.frame.take 5 = fmt5s POTS_TEXT) && decide ((r.frame.drop 5).take 5 = fmt5i 2)

/-- The input-sampling portion of the program state: the two pot baselines
and the two debouncer states. -/
def samplingOf (s : ProgState) : Int × Int × DebState × DebState :=
  (s.channel_one_pot_value, s.channel_two_pot_value, s.deb1, s.deb2)

/-- The outcomes of the `sendtoWait` calls recorded in a trace, in order. -/
def sendOks : List Eff → List Bool
  | [] => []
  | Eff.radioSend _ _ _ ok :: t => ok :: sendOks t
  | _ :: t => sendOks t

end GardenLights

namespace GardenLights

theorem fmt5i_length (v : Int) : (fmt5i v).length = 5 := by
  unfold fmt5i
  simp only [List.length_take, List.length_append, List.length_replicate]
  omega

theorem fmt5s_MODE : fmt5s MODE_TEXT = [77, 79, 68, 69, 32] := by decide

theorem fmt5s_POTS : fmt5s POTS_TEXT = [80, 79, 84, 83, 32] := by decide

theorem fill2_eq (p5 : List Nat) (hp : p5.length = 5) (c : Int) (buf : List Nat) :
    writeBytes (writeBytes buf 0 (p5 ++ [0])) CHANNEL_OFFSET (fmt5i c ++ [0]) =
      p5 ++ fmt5i c ++ 0 :: buf.drop 11 := by
  simp only [writeBytes, CHANNEL_OFFSET, List.take_zero, List.nil_append,
    List.take_append_eq_append_take, List.drop_append_eq_append_drop,
    List.length_append, List.length_take, List.length_drop, List.length_cons,
    List.length_singleton, fmt5i_length, hp, List.drop_drop]
  norm_num
  simp [List.take_of_length_le, List.drop_eq_nil_of_le, hp]

theorem fill3_eq (p5 c5 : List Nat) (hp : p5.length = 5) (hc : c5.length = 5)
    (v : Int) (buf : List Nat) (h : buf.length = 16) :
    writeBytes (p5 ++ c5 ++ 0 :: buf.drop 11) VALUE_OFFSET (fmt5i v ++ [0]) =
      p5 ++ c5 ++ fmt5i v ++ [0] := by
  simp only [writeBytes, VALUE_OFFSET,
    List.take_append_eq_append_take, List.drop_append_eq_append_drop,
    List.length_append, List.length_take, List.length_drop, List.length_cons,
    List.length_singleton, fmt5i_length, hp, hc, h, List.drop_drop]
  norm_num
  simp [List.take_of_length_le, List.drop_eq_nil_of_le, hp, hc, h]

theorem modeFill_eq (buf : List Nat) (ch : Int) :
    modeFill buf ch = modeFrame ch (buf.drop 11) := by
  unfold modeFill modeFrame
  rw [fmt5s_MODE]
  exact fill2_eq [77, 79, 68, 69, 32] rfl ch buf

theorem potsFill_eq (buf : List Nat) (ch v : Int) (h : buf.length = 16) :
    potsFill buf ch v = potsFrame ch v := by
  unfold potsFill potsFrame
  rw [fmt5s_POTS]
  rw [fill2_eq [80, 79, 84, 83, 32] rfl ch buf]
  exact fill3_eq [80, 79, 84, 83, 32] (fmt5i ch) rfl (fmt5i_length ch) v buf h

theorem modeFrame_length (ch : Int) (t : List Nat) :
    (modeFrame ch t).length = 11 + t.length := by
  simp [modeFrame, fmt5s_MODE, fmt5i_length]
  omega

theorem modeFrame_drop11 (ch : Int) (t : List Nat) : (modeFrame ch t).drop 11 = t := by
  unfold modeFrame
  rw [fmt5s_MODE]
  rw [List.drop_append_eq_append_drop, List.drop_append_eq_append_drop]
  simp [fmt5i_length]

theorem potsFrame_length (ch v : Int) : (potsFrame ch v).length = 16 := by
  simp [potsFrame, fmt5s_POTS, fmt5i_length]

end GardenLights

namespace GardenLights

theorem digitalWrite_fields (s : ProgState) (p : Nat) (l : Bool) :
    (digitalWrite s p l).command_buf = s.command_buf ∧
    (digitalWrite s p l).channel_one_pot_value = s.channel_one_pot_value ∧
    (digitalWrite s p l).channel_two_pot_value = s.channel_two_pot_value ∧
    (digitalWrite s p l).deb1 = s.deb1 ∧ (digitalWrite s p l).deb2 = s.deb2 ∧
    (digitalWrite s p l).sends = s.sends := by
  simp [digitalWrite]

theorem sendCommand_sends (o : Nat → Bool) (s : ProgState) (f : Bool) :
    (sendCommand o s f).sends =
      s.sends ++ [⟨s.command_buf, COMMAND_BUF_LEN, RECEIVER_ADDRESS⟩] := by
  unfold sendCommand sendtoWait
  by_cases h : o s.sends.length <;> by_cases hf : f <;>
    simp [h, hf, digitalWrite, delay]

theorem sendCommand_buf (o : Nat → Bool) (s : ProgState) (f : Bool) :
    (sendCommand o s f).command_buf = s.command_buf := by
  unfold sendCommand sendtoWait
  by_cases h : o s.sends.length <;> by_cases hf : f <;>
    simp [h, hf, digitalWrite, delay]

theorem sendCommand_sampling (o : Nat → Bool) (s : ProgState) (f : Bool) :
    samplingOf (sendCommand o s f) = samplingOf s := by
  unfold sendCommand sendtoWait samplingOf
  by_cases h : o s.sends.length <;> by_cases hf : f <;>
    simp [h, hf, digitalWrite, delay]

theorem sendButton_sends (o : Nat → Bool) (s : ProgState) (ch : Int) :
    (sendButton o s ch).sends =
      s.sends ++ [⟨modeFrame ch (s.command_buf.drop 11), COMMAND_BUF_LEN, RECEIVER_ADDRESS⟩] := by
  unfold sendButton
  rw [sendCommand_sends]
  simp [modeFill_eq]

theorem sendButton_buf (o : Nat → Bool) (s : ProgState) (ch : Int) :
    (sendButton o s ch).command_buf = modeFrame ch (s.command_buf.drop 11) := by
  unfold sendButton
  rw [sendCommand_buf]
  simp [modeFill_eq]

theorem sendButton_sampling (o : Nat → Bool) (s : ProgState) (ch : Int) :
    samplingOf (sendButton o s ch) = samplingOf s := by
  unfold sendButton
  rw [sendCommand_sampling]
  simp [samplingOf]

theorem sendPots_sends (o : Nat → Bool) (s : ProgState) (ch v : Int)
    (h : s.command_buf.length = 16) :
    (sendPots o s ch v).sends =
      s.sends ++ [⟨potsFrame ch v, COMMAND_BUF_LEN, RECEIVER_ADDRESS⟩] := by
  unfold sendPots
  rw [sendCommand_sends]
  simp [potsFill_eq _ _ _ h]

theorem sendPots_buf (o : Nat → Bool) (s : ProgState) (ch v : Int)
    (h : s.command_buf.length = 16) :
    (sendPots o s ch v).command_buf = potsFrame ch v := by
  unfold sendPots
  rw [sendCommand_buf]
  simp [potsFill_eq _ _ _ h]

theorem sendPots_sampling (o : Nat → Bool) (s : ProgState) (ch v : Int) :
    samplingOf (sendPots o s ch v) = samplingOf s := by
  unfold sendPots
  rw [sendCommand_sampling]
  simp [samplingOf]

end GardenLights

namespace GardenLights

theorem sendButton_c1 (o : Nat → Bool) (s : ProgState) (ch : Int) :
    (sendButton o s ch).channel_one_pot_value = s.channel_one_pot_value :=
  congrArg (fun t => t.1) (sendButton_sampling o s ch)

theorem sendButton_c2 (o : Nat → Bool) (s : ProgState) (ch : Int) :
    (sendButton o s ch).channel_two_pot_value = s.channel_two_pot_value :=
  congrArg (fun t => t.2.1) (sendButton_sampling o s ch)

theorem sendButton_deb1 (o : Nat → Bool) (s : ProgState) (ch : Int) :
    (sendButton o s ch).deb1 = s.deb1 :=
  congrArg (fun t => t.2.2.1) (sendButton_sampling o s ch)

theorem sendButton_deb2 (o : Nat → Bool) (s : ProgState) (ch : Int) :
    (sendButton o s ch).deb2 = s.deb2 :=
  congrArg (fun t => t.2.2.2) (sendButton_sampling o s ch)

theorem sendPots_c1 (o : Nat → Bool) (s : ProgState) (ch v : Int) :
    (sendPots o s ch v).channel_one_pot_value = s.channel_one_pot_value :=
  congrArg (fun t => t.1) (sendPots_sampling o s ch v)

theorem sendPots_c2 (o : Nat → Bool) (s : ProgState) (ch v : Int) :
    (sendPots o s ch v).channel_two_pot_value = s.channel_two_pot_value :=
  congrArg (fun t => t.2.1) (sendPots_sampling o s ch v)

theorem sendPots_deb1 (o : Nat → Bool) (s : ProgState) (ch v : Int) :
    (sendPots o s ch v).deb1 = s.deb1 :=
  congrArg (fun t => t.2.2.1) (sendPots_sampling o s ch v)

theorem sendPots_deb2 (o : Nat → Bool) (s : ProgState) (ch v : Int) :
    (sendPots o s ch v).deb2 = s.deb2 :=
  congrArg (fun t => t.2.2.2) (sendPots_sampling o s ch v)

theorem sendPots_sends2 (o : Nat → Bool) (s : ProgState) (ch v : Int) :
    (sendPots o s ch v).sends =
      s.sends ++ [⟨potsFill s.command_buf ch v, COMMAND_BUF_LEN, RECEIVER_ADDRESS⟩] := by
  unfold sendPots
  rw [sendCommand_sends]

theorem sendPots_buf2 (o : Nat → Bool) (s : ProgState) (ch v : Int) :
    (sendPots o s ch v).command_buf = potsFill s.command_buf ch v := by
  unfold sendPots
  rw [sendCommand_buf]

theorem loopStep_fields (o : Nat → Bool) (s : ProgState) (inp : LoopInputs)
    (h : s.command_buf.length = 16) :
    (loopStep o s inp).sends = s.sends
      ++ (if (debStep s.deb1 inp.btn1).2 then
            [⟨modeFrame 1 (s.command_buf.drop 11), COMMAND_BUF_LEN, RECEIVER_ADDRESS⟩] else [])
      ++ (if (debStep s.deb2 inp.btn2).2 then
            [⟨modeFrame 2 (s.command_buf.drop 11), COMMAND_BUF_LEN, RECEIVER_ADDRESS⟩] else [])
      ++ (if POTS_EPS < cAbs (inp.read1 - s.channel_one_pot_value) then
            [⟨potsFrame 1 inp.read1, COMMAND_BUF_LEN, RECEIVER_ADDRESS⟩] else [])
      ++ (if POTS_EPS < cAbs (inp.read2 - s.channel_two_pot_value) then
            [⟨potsFrame 2 inp.read2, COMMAND_BUF_LEN, RECEIVER_ADDRESS⟩] else []) ∧
    (loopStep o s inp).channel_one_pot_value =
      (if POTS_EPS < cAbs (inp.read1 - s.channel_one_pot_value) then inp.read1
       else s.channel_one_pot_value) ∧
    (loopStep o s inp).channel_two_pot_value =
      (if POTS_EPS < cAbs (inp.read2 - s.channel_two_pot_value) then inp.read2
       else s.channel_two_pot_value) ∧
    (loopStep o s inp).deb1 = (debStep s.deb1 inp.btn1).1 ∧
    (loopStep o s inp).deb2 = (debStep s.deb2 inp.btn2).1 ∧
    (loopStep o s inp).command_buf.length = 16 := by
  unfold loopStep
  by_cases h1 : (debStep s.deb1 inp.btn1).2 <;>
    by_cases h2 : (debStep s.deb2 inp.btn2).2 <;>
      by_cases h3 : POTS_EPS < cAbs (inp.read1 - s.channel_one_pot_value) <;>
        by_cases h4 : POTS_EPS < cAbs (inp.read2 - s.channel_two_pot_value) <;>
          simp [h1, h2, h3, h4, sendButton_sends, sendButton_buf, sendButton_c1,
            sendButton_c2, sendButton_deb1, sendButton_deb2, sendPots_sends2,
            sendPots_buf2, sendPots_c1, sendPots_c2, sendPots_deb1, sendPots_deb2,
            potsFill_eq, modeFrame_drop11, modeFrame_length, potsFrame_length,
            List.length_drop, h]

end GardenLights


namespace GardenLights

theorem debRun_stable (b : Bool) (c m : Nat) :
    debRun ⟨b, b, c⟩ (List.replicate m b) = (⟨b, b, c + m⟩, 0) := by
  induction m generalizing c with
  | zero => simp [debRun]
  | succ m ih =>
    rw [List.replicate_succ]
    simp only [debRun, debStep]
    simp [ih]
    omega

theorem debRun_pending (b : Bool) (m c : Nat) (hc : c < DEBOUNCE_INTERVAL) :
    debRun ⟨b, !b, c⟩ (List.replicate m (!b)) =
      (if c + m < DEBOUNCE_INTERVAL then (⟨b, !b, c + m⟩, 0)
       else (⟨!b, !b, c + m⟩, if b then 1 else 0)) := by
  induction m generalizing c with
  | zero =>
    simp only [List.replicate_zero, debRun, Nat.add_zero]
    rw [if_pos hc]
  | succ m ih =>
    have hbb : ¬ (!b) = b := by cases b <;> simp
    have harr : c + 1 + m = c + (m + 1) := by omega
    rw [List.replicate_succ]
    simp only [debRun, debStep, if_true, Bool.not_not, hbb, not_false_iff, and_true,
      ne_eq]
    by_cases hacc : DEBOUNCE_INTERVAL ≤ c + 1
    · rw [if_pos hacc, debRun_stable, harr,
        if_neg (by omega : ¬ c + (m + 1) < DEBOUNCE_INTERVAL)]
      cases b <;> simp
    · rw [if_neg hacc, ih (c + 1) (by omega), harr]
      by_cases hlt : c + (m + 1) < DEBOUNCE_INTERVAL
      · rw [if_pos hlt]
        simp
      · rw [if_neg hlt]
        simp

end GardenLights

namespace GardenLights

theorem replicate_suffix_of_le {a b : Nat} (x : Bool) (h : a ≤ b) :
    (List.replicate a x).IsSuffix (List.replicate b x) := by
  refine ⟨List.replicate (b - a) x, ?_⟩
  rw [← List.replicate_add]
  congr 1
  omega

theorem suffix_snoc_of_suffix {l p : List Bool} (x : Bool) (h : l.IsSuffix p) :
    (l ++ [x]).IsSuffix (p ++ [x]) := by
  obtain ⟨t, rfl⟩ := h
  exact ⟨t, by simp⟩

theorem suffix_extend (c : Nat) (x : Bool) (p : List Bool)
    (h : (List.replicate (min c DEBOUNCE_INTERVAL) x).IsSuffix p) :
    (List.replicate (min (c + 1) DEBOUNCE_INTERVAL) x).IsSuffix (p ++ [x]) := by
  have h2 : (List.replicate (min c DEBOUNCE_INTERVAL) x ++ [x]).IsSuffix (p ++ [x]) :=
    suffix_snoc_of_suffix x h
  rw [← List.replicate_succ' ] at h2
  exact (replicate_suffix_of_le x (by omega)).trans h2

theorem debRun_event_run (l : List Bool) : ∀ (s : DebState) (p : List Bool),
    (List.replicate (min s.count DEBOUNCE_INTERVAL) s.candidate).IsSuffix p →
    1 ≤ (debRun s l).2 →
    ∃ l1 l2, p ++ l = l1 ++ List.replicate DEBOUNCE_INTERVAL false ++ l2 := by
  induction l with
  | nil =>
    intro s p _ hev
    simp [debRun] at hev
  | cons raw rest ih =>
    intro s p hinv hev
    by_cases hc : raw = s.candidate
    · by_cases hacc : DEBOUNCE_INTERVAL ≤ s.count + 1 ∧ raw ≠ s.stable
      · by_cases hraw : raw = true
        · -- accepted rise: no event here, recurse
          have hstep : debStep s raw = (⟨raw, raw, s.count + 1⟩, !raw) := by
            unfold debStep
            rw [if_pos hc, if_pos hacc]
          have hev2 : 1 ≤ (debRun (⟨raw, raw, s.count + 1⟩ : DebState) rest).2 := by
            simp only [debRun] at hev
            rw [hstep] at hev
            simpa [hraw] using hev
          have hinv2 : (List.replicate (min ((⟨raw, raw, s.count + 1⟩ : DebState).count)
              DEBOUNCE_INTERVAL) ((⟨raw, raw, s.count + 1⟩ : DebState).candidate)).IsSuffix
              (p ++ [raw]) := by
            have := suffix_extend s.count raw p (by rw [hc]; exact hinv)
            simpa using this
          obtain ⟨l1, l2, hl⟩ := ih _ _ hinv2 hev2
          exact ⟨l1, l2, by simpa using hl⟩
        · -- accepted fall: the last ten samples are LOW
          have hrf : raw = false := by cases raw <;> simp_all
          have hcount : 9 ≤ min s.count DEBOUNCE_INTERVAL := by
            have := hacc.1
            unfold DEBOUNCE_INTERVAL at this ⊢
            omega
          have h9 : (List.replicate 9 false).IsSuffix p := by
            refine List.IsSuffix.trans ?_ hinv
            rw [hc] at hrf
            rw [hrf]
            exact replicate_suffix_of_le false hcount
          obtain ⟨t, ht⟩ := h9
          refine ⟨t, rest, ?_⟩
          rw [← ht, hrf]
          simp [List.append_assoc]
          simp [DEBOUNCE_INTERVAL, List.replicate_succ]
      · -- still debouncing: extend the run
        have hstep : debStep s raw = (⟨s.stable, s.candidate, s.count + 1⟩, false) := by
          unfold debStep
          rw [if_pos hc, if_neg hacc]
        have hev2 : 1 ≤ (debRun (⟨s.stable, s.candidate, s.count + 1⟩ : DebState) rest).2 := by
          simp only [debRun] at hev
          rw [hstep] at hev
          simpa using hev
        have hinv2 : (List.replicate (min (s.count + 1) DEBOUNCE_INTERVAL)
            s.candidate).IsSuffix (p ++ [raw]) := by
          rw [hc]
          exact suffix_extend s.count s.candidate p hinv
        obtain ⟨l1, l2, hl⟩ := ih ⟨s.stable, s.candidate, s.count + 1⟩ (p ++ [raw])
          (by simpa using hinv2) hev2
        exact ⟨l1, l2, by simpa using hl⟩
    · -- raw level changed: the candidate run restarts
      have hstep : debStep s raw = (⟨s.stable, raw, 1⟩, false) := by
        unfold debStep
        rw [if_neg hc]
      have hev2 : 1 ≤ (debRun (⟨s.stable, raw, 1⟩ : DebState) rest).2 := by
        simp only [debRun] at hev
        rw [hstep] at hev
        simpa using hev
      have hinv2 : (List.replicate (min 1 DEBOUNCE_INTERVAL) raw).IsSuffix (p ++ [raw]) := by
        have : min 1 DEBOUNCE_INTERVAL = 1 := by unfold DEBOUNCE_INTERVAL; omega
        rw [this]
        exact ⟨p, by simp⟩
      obtain ⟨l1, l2, hl⟩ := ih ⟨s.stable, raw, 1⟩ (p ++ [raw]) (by simpa using hinv2) hev2
      exact ⟨l1, l2, by simpa using hl⟩

end GardenLights

namespace GardenLights

theorem debRun_append (s : DebState) (l1 l2 : List Bool) :
    debRun s (l1 ++ l2) =
      ((debRun (debRun s l1).1 l2).1, (debRun s l1).2 + (debRun (debRun s l1).1 l2).2) := by
  induction l1 generalizing s with
  | nil => simp [debRun]
  | cons a t ih =>
    simp only [List.cons_append, debRun, List.append_eq, ih, Prod.mk.injEq]
    exact ⟨trivial, by omega⟩

end GardenLights

namespace GardenLights

theorem sendCommand_trace_noflash (o : Nat → Bool) (s : ProgState) :
    (sendCommand o s false).trace =
      s.trace ++ [Eff.radioSend s.command_buf COMMAND_BUF_LEN RECEIVER_ADDRESS
        (o s.sends.length)] := by
  unfold sendCommand sendtoWait
  by_cases h : o s.sends.length <;> simp [h, digitalWrite, delay]

theorem sendCommand_trace_ok (o : Nat → Bool) (s : ProgState)
    (h : o s.sends.length = true) :
    (sendCommand o s true).trace =
      s.trace ++ [Eff.radioSend s.command_buf COMMAND_BUF_LEN RECEIVER_ADDRESS true,
        Eff.dwrite GREEN_LED_PIN true, Eff.dwrite ORANGE_LED_PIN false, Eff.delayMs 200,
        Eff.dwrite GREEN_LED_PIN false, Eff.dwrite ORANGE_LED_PIN false] := by
  unfold sendCommand sendtoWait
  simp [h, digitalWrite, delay]

theorem sendCommand_trace_fail (o : Nat → Bool) (s : ProgState)
    (h : o s.sends.length = false) :
    (sendCommand o s true).trace =
      s.trace ++ [Eff.radioSend s.command_buf COMMAND_BUF_LEN RECEIVER_ADDRESS false,
        Eff.dwrite GREEN_LED_PIN false, Eff.dwrite ORANGE_LED_PIN true, Eff.delayMs 200,
        Eff.dwrite GREEN_LED_PIN false, Eff.dwrite ORANGE_LED_PIN false] := by
  unfold sendCommand sendtoWait
  simp [h, digitalWrite, delay]

theorem sendCommand_led (o : Nat → Bool) (s : ProgState) :
    (sendCommand o s true).green = false ∧ (sendCommand o s true).orange = false := by
  unfold sendCommand sendtoWait
  by_cases h : o s.sends.length <;>
    simp [h, digitalWrite, delay, GREEN_LED_PIN, ORANGE_LED_PIN]

theorem sendOks_append (t1 t2 : List Eff) :
    sendOks (t1 ++ t2) = sendOks t1 ++ sendOks t2 := by
  induction t1 with
  | nil => simp [sendOks]
  | cons a t ih => cases a <;> simp [sendOks, ih]

theorem sendCommand_sendOks (o : Nat → Bool) (s : ProgState) (f : Bool) :
    sendOks (sendCommand o s f).trace = sendOks s.trace ++ [o s.sends.length] := by
  unfold sendCommand sendtoWait
  by_cases h : o s.sends.length <;> by_cases hf : f <;>
    simp [h, hf, digitalWrite, delay, sendOks_append, sendOks]

theorem sendButton_sendOks (o : Nat → Bool) (s : ProgState) (ch : Int) :
    sendOks (sendButton o s ch).trace = sendOks s.trace ++ [o s.sends.length] := by
  unfold sendButton
  rw [sendCommand_sendOks]

theorem sendPots_sendOks (o : Nat → Bool) (s : ProgState) (ch v : Int) :
    sendOks (sendPots o s ch v).trace = sendOks s.trace ++ [o s.sends.length] := by
  unfold sendPots
  rw [sendCommand_sendOks]

theorem potsFrame_take5 (ch v : Int) : (potsFrame ch v).take 5 = fmt5s POTS_TEXT := by
  simp [potsFrame, fmt5s_POTS, List.take_append_eq_append_take]

theorem potsFrame_chfield (ch v : Int) :
    ((potsFrame ch v).drop 5).take 5 = fmt5i ch := by
  simp [potsFrame, fmt5s_POTS, List.drop_append_eq_append_drop,
    List.take_append_eq_append_take, fmt5i_length, List.take_of_length_le]

theorem modeFrame_take5 (ch : Int) (t : List Nat) :
    (modeFrame ch t).take 5 = fmt5s MODE_TEXT := by
  simp [modeFrame, fmt5s_MODE, List.take_append_eq_append_take]

theorem modeFrame_take10 (ch : Int) (t : List Nat) :
    (modeFrame ch t).take 10 = fmt5s MODE_TEXT ++ fmt5i ch := by
  simp [modeFrame, fmt5s_MODE, List.take_append_eq_append_take, fmt5i_length,
    List.take_of_length_le]

theorem modeFrame_drop10 (ch : Int) (t : List Nat) :
    (modeFrame ch t).drop 10 = 0 :: t := by
  simp [modeFrame, fmt5s_MODE, List.drop_append_eq_append_drop, fmt5i_length]

theorem potsFrame_valfield (ch v : Int) :
    ((potsFrame ch v).drop 10).take 5 = fmt5i v := by
  simp [potsFrame, fmt5s_POTS, List.drop_append_eq_append_drop,
    List.take_append_eq_append_take, fmt5i_length, List.take_of_length_le]

theorem isPots1_modeFrame (ch : Int) (t : List Nat) (L D : Nat) :
    isPots1 ⟨modeFrame ch t, L, D⟩ = false := by
  simp [isPots1, modeFrame_take5, fmt5s_MODE, fmt5s_POTS]

theorem isPots1_potsFrame1 (v : Int) (L D : Nat) :
    isPots1 ⟨potsFrame 1 v, L, D⟩ = true := by
  simp [isPots1, potsFrame_take5, potsFrame_chfield]

theorem isPots1_potsFrame2 (v : Int) (L D : Nat) :
    isPots1 ⟨potsFrame 2 v, L, D⟩ = false := by
  have : fmt5i 2 ≠ fmt5i 1 := by decide
  simp [isPots1, potsFrame_take5, potsFrame_chfield, this]

theorem isPots2_modeFrame (ch : Int) (t : List Nat) (L D : Nat) :
    isPots2 ⟨modeFrame ch t, L, D⟩ = false := by
  simp [isPots2, modeFrame_take5, fmt5s_MODE, fmt5s_POTS]

theorem isPots2_potsFrame2 (v : Int) (L D : Nat) :
    isPots2 ⟨potsFrame 2 v, L, D⟩ = true := by
  simp [isPots2, potsFrame_take5, potsFrame_chfield]

theorem isPots2_potsFrame1 (v : Int) (L D : Nat) :
    isPots2 ⟨potsFrame 1 v, L, D⟩ = false := by
  have : fmt5i 1 ≠ fmt5i 2 := by decide
  simp [isPots2, potsFrame_take5, potsFrame_chfield, this]

end GardenLights

namespace GardenLights

/-- The always-failing radio collaborator: every `sendtoWait` reports
failure. -/
def failOracle : Nat → Bool := fun _ => false

theorem samplingOf_loopStep (o : Nat → Bool) (s : ProgState) (inp : LoopInputs)
    (h : s.command_buf.length = 16) :
    samplingOf (loopStep o s inp) =
      ((if POTS_EPS < cAbs (inp.read1 - s.channel_one_pot_value) then inp.read1
        else s.channel_one_pot_value),
       (if POTS_EPS < cAbs (inp.read2 - s.channel_two_pot_value) then inp.read2
        else s.channel_two_pot_value),
       (debStep s.deb1 inp.btn1).1, (debStep s.deb2 inp.btn2).1) := by
  obtain ⟨-, h1, h2, h3, h4, -⟩ := loopStep_fields o s inp h
  simp [samplingOf, h1, h2, h3, h4]

theorem loopStep_buflen (o : Nat → Bool) (s : ProgState) (inp : LoopInputs)
    (h : s.command_buf.length = 16) : (loopStep o s inp).command_buf.length = 16 :=
  (loopStep_fields o s inp h).2.2.2.2.2

theorem loopStep_sampling_oracle (o1 o2 : Nat → Bool) (s t : ProgState) (inp : LoopInputs)
    (hst : samplingOf s = samplingOf t)
    (hs : s.command_buf.length = 16) (ht : t.command_buf.length = 16) :
    samplingOf (loopStep o1 s inp) = samplingOf (loopStep o2 t inp) := by
  rw [samplingOf_loopStep o1 s inp hs, samplingOf_loopStep o2 t inp ht]
  have e1 : s.channel_one_pot_value = t.channel_one_pot_value :=
    congrArg (fun x => x.1) hst
  have e2 : s.channel_two_pot_value = t.channel_two_pot_value :=
    congrArg (fun x => x.2.1) hst
  have e3 : s.deb1 = t.deb1 := congrArg (fun x => x.2.2.1) hst
  have e4 : s.deb2 = t.deb2 := congrArg (fun x => x.2.2.2) hst
  rw [e1, e2, e3, e4]

theorem fold_sampling_oracle (o1 o2 : Nat → Bool) (inputs : List LoopInputs) :
    ∀ s t : ProgState, samplingOf s = samplingOf t →
      s.command_buf.length = 16 → t.command_buf.length = 16 →
      samplingOf (inputs.foldl (loopStep o1) s) =
        samplingOf (inputs.foldl (loopStep o2) t) := by
  induction inputs with
  | nil => intro s t h _ _; simpa using h
  | cons i rest ih =>
    intro s t h hs ht
    simp only [List.foldl_cons]
    exact ih _ _ (loopStep_sampling_oracle o1 o2 s t i h hs ht)
      (loopStep_buflen o1 s i hs) (loopStep_buflen o2 t i ht)

theorem loopStep_filterPots1 (o : Nat → Bool) (s : ProgState) (inp : LoopInputs)
    (h : s.command_buf.length = 16) :
    (loopStep o s inp).sends.filter isPots1 = s.sends.filter isPots1
      ++ (if POTS_EPS < cAbs (inp.read1 - s.channel_one_pot_value) then
            [⟨potsFrame 1 inp.read1, COMMAND_BUF_LEN, RECEIVER_ADDRESS⟩] else []) := by
  rw [(loopStep_fields o s inp h).1]
  by_cases h1 : (debStep s.deb1 inp.btn1).2 <;>
    by_cases h2 : (debStep s.deb2 inp.btn2).2 <;>
      by_cases h3 : POTS_EPS < cAbs (inp.read1 - s.channel_one_pot_value) <;>
        by_cases h4 : POTS_EPS < cAbs (inp.read2 - s.channel_two_pot_value) <;>
          simp [h1, h2, h3, h4, List.filter_append, List.filter_cons,
            isPots1_modeFrame, isPots1_potsFrame1, isPots1_potsFrame2]

theorem fold_osc_pot1 (o : Nat → Bool) (inputs : List LoopInputs) :
    ∀ s : ProgState, s.command_buf.length = 16 →
      (∀ i ∈ inputs, cAbs (i.read1 - s.channel_one_pot_value) ≤ POTS_EPS) →
      (inputs.foldl (loopStep o) s).channel_one_pot_value = s.channel_one_pot_value ∧
      (inputs.foldl (loopStep o) s).sends.filter isPots1 = s.sends.filter isPots1 := by
  induction inputs with
  | nil => intro s _ _; simp
  | cons i rest ih =>
    intro s hs hband
    have hcond : ¬ POTS_EPS < cAbs (i.read1 - s.channel_one_pot_value) :=
      not_lt.mpr (hband i (List.mem_cons_self i rest))
    simp only [List.foldl_cons]
    have hc1 : (loopStep o s i).channel_one_pot_value = s.channel_one_pot_value := by
      rw [(loopStep_fields o s i hs).2.1, if_neg hcond]
    have hfl : (loopStep o s i).sends.filter isPots1 = s.sends.filter isPots1 := by
      rw [loopStep_filterPots1 o s i hs, if_neg hcond]
      simp
    obtain ⟨ha, hb⟩ := ih (loopStep o s i) (loopStep_buflen o s i hs)
      (by intro j hj; rw [hc1]; exact hband j (List.mem_cons_of_mem i hj))
    exact ⟨by rw [ha, hc1], by rw [hb, hfl]⟩

theorem loopStep_filterPots2 (o : Nat → Bool) (s : ProgState) (inp : LoopInputs)
    (h : s.command_buf.length = 16) :
    (loopStep o s inp).sends.filter isPots2 = s.sends.filter isPots2
      ++ (if POTS_EPS < cAbs (inp.read2 - s.channel_two_pot_value) then
            [⟨potsFrame 2 inp.read2, COMMAND_BUF_LEN, RECEIVER_ADDRESS⟩] else []) := by
  rw [(loopStep_fields o s inp h).1]
  by_cases h1 : (debStep s.deb1 inp.btn1).2 <;>
    by_cases h2 : (debStep s.deb2 inp.btn2).2 <;>
      by_cases h3 : POTS_EPS < cAbs (inp.read1 - s.channel_one_pot_value) <;>
        by_cases h4 : POTS_EPS < cAbs (inp.read2 - s.channel_two_pot_value) <;>
          simp [h1, h2, h3, h4, List.filter_append, List.filter_cons,
            isPots2_modeFrame, isPots2_potsFrame1, isPots2_potsFrame2]

theorem fold_osc_pot2 (o : Nat → Bool) (inputs : List LoopInputs) :
    ∀ s : ProgState, s.command_buf.length = 16 →
      (∀ i ∈ inputs, cAbs (i.read2 - s.channel_two_pot_value) ≤ POTS_EPS) →
      (inputs.foldl (loopStep o) s).channel_two_pot_value = s.channel_two_pot_value ∧
      (inputs.foldl (loopStep o) s).sends.filter isPots2 = s.sends.filter isPots2 := by
  induction inputs with
  | nil => intro s _ _; simp
  | cons i rest ih =>
    intro s hs hband
    have hcond : ¬ POTS_EPS < cAbs (i.read2 - s.channel_two_pot_value) :=
      not_lt.mpr (hband i (List.mem_cons_self i rest))
    simp only [List.foldl_cons]
    have hc2 : (loopStep o s i).channel_two_pot_value = s.channel_two_pot_value := by
      rw [(loopStep_fields o s i hs).2.2.1, if_neg hcond]
    have hfl : (loopStep o s i).sends.filter isPots2 = s.sends.filter isPots2 := by
      rw [loopStep_filterPots2 o s i hs, if_neg hcond]
      simp
    obtain ⟨ha, hb⟩ := ih (loopStep o s i) (loopStep_buflen o s i hs)
      (by intro j hj; rw [hc2]; exact hband j (List.mem_cons_of_mem i hj))
    exact ⟨by rw [ha, hc2], by rw [hb, hfl]⟩

/-- Every `sendtoWait` outcome recorded in the trace is a failure. -/
def allFailed (t : ProgState) : Prop := ∀ b ∈ sendOks t.trace, b = false

theorem allFailed_sendButton (t : ProgState) (ch : Int) (h : allFailed t) :
    allFailed (sendButton failOracle t ch) := by
  intro b hb
  rw [sendButton_sendOks] at hb
  rcases List.mem_append.mp hb with hb | hb
  · exact h b hb
  · simpa [failOracle] using hb

theorem allFailed_sendPots (t : ProgState) (ch v : Int) (h : allFailed t) :
    allFailed (sendPots failOracle t ch v) := by
  intro b hb
  rw [sendPots_sendOks] at hb
  rcases List.mem_append.mp hb with hb | hb
  · exact h b hb
  · simpa [failOracle] using hb

theorem allFailed_ite (c : Prop) [Decidable c] (a b : ProgState)
    (ha : allFailed a) (hb : allFailed b) : allFailed (if c then a else b) := by
  split <;> assumption

theorem loopStep_allFailed (s : ProgState) (inp : LoopInputs)
    (h : allFailed s) : allFailed (loopStep failOracle s inp) := by
  simp only [loopStep]
  refine allFailed_ite _ _ _ (allFailed_sendPots _ _ _ ?_) ?_ <;>
    refine allFailed_ite _ _ _ (allFailed_sendPots _ _ _ ?_) ?_ <;>
      refine allFailed_ite _ _ _ (allFailed_sendButton _ _ ?_) ?_ <;>
        refine allFailed_ite _ _ _ (allFailed_sendButton _ _ ?_) ?_ <;>
          exact h
end GardenLights

namespace GardenLights

theorem fold_allFailed (inputs : List LoopInputs) :
    ∀ s : ProgState, allFailed s →
      allFailed (inputs.foldl (loopStep failOracle) s) := by
  induction inputs with
  | nil => intro s h; simpa using h
  | cons i rest ih =>
    intro s h
    simp only [List.foldl_cons]
    exact ih _ (loopStep_allFailed s i h)

theorem sendPots_trace (o : Nat → Bool) (s : ProgState) (ch v : Int)
    (h : s.command_buf.length = 16) :
    (sendPots o s ch v).trace = s.trace ++
      [Eff.radioSend (potsFrame ch v) COMMAND_BUF_LEN RECEIVER_ADDRESS (o s.sends.length)] := by
  unfold sendPots
  rw [sendCommand_trace_noflash]
  simp [potsFill_eq _ _ _ h]

theorem sendButton_trace_ok (o : Nat → Bool) (s : ProgState) (ch : Int)
    (h : o s.sends.length = true) :
    (sendButton o s ch).trace = s.trace ++
      [Eff.radioSend (modeFrame ch (s.command_buf.drop 11)) COMMAND_BUF_LEN
        RECEIVER_ADDRESS true,
       Eff.dwrite GREEN_LED_PIN true, Eff.dwrite ORANGE_LED_PIN false, Eff.delayMs 200,
       Eff.dwrite GREEN_LED_PIN false, Eff.dwrite ORANGE_LED_PIN false] := by
  unfold sendButton
  have h2 : o (({ s with command_buf := modeFill s.command_buf ch } : ProgState)).sends.length = true := h
  rw [sendCommand_trace_ok _ _ h2]
  simp [modeFill_eq]

theorem sendButton_trace_fail (o : Nat → Bool) (s : ProgState) (ch : Int)
    (h : o s.sends.length = false) :
    (sendButton o s ch).trace = s.trace ++
      [Eff.radioSend (modeFrame ch (s.command_buf.drop 11)) COMMAND_BUF_LEN
        RECEIVER_ADDRESS false,
       Eff.dwrite GREEN_LED_PIN false, Eff.dwrite ORANGE_LED_PIN true, Eff.delayMs 200,
       Eff.dwrite GREEN_LED_PIN false, Eff.dwrite ORANGE_LED_PIN false] := by
  unfold sendButton
  have h2 : o (({ s with command_buf := modeFill s.command_buf ch } : ProgState)).sends.length = false := h
  rw [sendCommand_trace_fail _ _ h2]
  simp [modeFill_eq]

theorem sendButton_led (o : Nat → Bool) (s : ProgState) (ch : Int) :
    (sendButton o s ch).green = false ∧ (sendButton o s ch).orange = false := by
  unfold sendButton
  exact sendCommand_led o _

theorem setup_some (initOk setRFOk : Bool) (r1 r2 : Int) (s : ProgState)
    (h : setup initOk setRFOk r1 r2 = some s) :
    s.command_buf.length = 16 ∧ s.channel_one_pot_value = r1 ∧
    s.channel_two_pot_value = r2 ∧ s.deb1 = debInit ∧ s.deb2 = debInit ∧
    s.sends = [] ∧ sendOks s.trace = [] := by
  unfold setup at h
  by_cases hi : initOk
  · by_cases hr : setRFOk
    · simp [hi, hr] at h
      subst h
      simp [digitalWrite, delay, sendOks, COMMAND_BUF_LEN]
    · simp [hi, hr] at h
  · simp [hi] at h

end GardenLights

namespace GardenLights

/-- A concrete device state used to instantiate theorems: fresh
zero-initialized buffer, pot baselines 500 and 300, both debouncers
released, no effects yet. -/
def testState : ProgState :=
  ⟨List.replicate 16 0, 500, 300, debInit, debInit, false, false, [], []⟩

/-- A device state whose channel-1 debouncer has already observed the LOW
candidate level for nine polls. -/
def testStatePending : ProgState :=
  ⟨List.replicate 16 0, 500, 300, ⟨true, false, 9⟩, debInit, false, false, [], []⟩

/-- Claim C6: if initialization or RF configuration of the datagram
collaborator fails at startup, the device enters a terminal inert loop
before the main loop ever runs: no input is ever sampled and no frame is
ever sent after such a failure. -/
theorem C6_startup_failure_inert (initOk setRFOk : Bool) (r1 r2 : Int)
    (oracle : Nat → Bool) (inputs : List LoopInputs)
    (h : initOk = false ∨ setRFOk = false) :
    runDevice initOk setRFOk r1 r2 oracle inputs = none ∧
    deviceSends initOk setRFOk r1 r2 oracle inputs = [] := by
  have hr : runDevice initOk setRFOk r1 r2 oracle inputs = none := by
    unfold runDevice setup
    rcases h with rfl | rfl
    · simp
    · by_cases hi : initOk <;> simp [hi]
  refine ⟨hr, ?_⟩
  unfold deviceSends
  rw [hr]

theorem C6_witness :
    (false = false ∨ false = false) ∧
    (runDevice false true 0 0 failOracle [] = none ∧
     deviceSends false true 0 0 failOracle [] = []) :=
  ⟨Or.inl rfl, C6_startup_failure_inert false true 0 0 failOracle [] (Or.inl rfl)⟩

/-- Claim C10: every button-originated delivery, whether Delivered or
Failed, leaves both status-indicator lines (green and orange) driven low
when the send routine returns: the indicator pulse always ends within the
call and is never left latched on.  (`sendButton` always passes
`flash_led = true`, and this holds for every oracle outcome.) -/
theorem C10_led_low_after_send (o : Nat → Bool) (s : ProgState) (ch : Int) :
    (sendButton o s ch).green = false ∧ (sendButton o s ch).orange = false :=
  sendButton_led o s ch

/-- Claim C8: the status indicator is pulsed only for deliveries of frames
originating from a button press: on Delivered the trace shows a brief
green (positive) pulse, on Failed a brief orange (negative) pulse, and
`sendPots` deliveries append only the radio call and never touch the
indicator. -/
theorem C8_indicator_pulses (o : Nat → Bool) (s : ProgState) (ch v : Int)
    (h16 : s.command_buf.length = 16) :
    ((sendPots o s ch v).trace = s.trace ++
       [Eff.radioSend (potsFrame ch v) COMMAND_BUF_LEN RECEIVER_ADDRESS
         (o s.sends.length)]) ∧
    (o s.sends.length = true →
      (sendButton o s ch).trace = s.trace ++
        [Eff.radioSend (modeFrame ch (s.command_buf.drop 11)) COMMAND_BUF_LEN
          RECEIVER_ADDRESS true,
         Eff.dwrite GREEN_LED_PIN true, Eff.dwrite ORANGE_LED_PIN false,
         Eff.delayMs 200,
         Eff.dwrite GREEN_LED_PIN false, Eff.dwrite ORANGE_LED_PIN false]) ∧
    (o s.sends.length = false →
      (sendButton o s ch).trace = s.trace ++
        [Eff.radioSend (modeFrame ch (s.command_buf.drop 11)) COMMAND_BUF_LEN
          RECEIVER_ADDRESS false,
         Eff.dwrite GREEN_LED_PIN false, Eff.dwrite ORANGE_LED_PIN true,
         Eff.delayMs 200,
         Eff.dwrite GREEN_LED_PIN false, Eff.dwrite ORANGE_LED_PIN false]) :=
  ⟨sendPots_trace o s ch v h16,
   fun h => sendButton_trace_ok o s ch h,
   fun h => sendButton_trace_fail o s ch h⟩

theorem C8_witness :
    testState.command_buf.length = 16 ∧
    (((sendPots (fun _ => true) testState 1 506).trace = testState.trace ++
       [Eff.radioSend (potsFrame 1 506) COMMAND_BUF_LEN RECEIVER_ADDRESS
         ((fun _ => true) testState.sends.length)]) ∧
     ((fun _ => true) testState.sends.length = true →
       (sendButton (fun _ => true) testState 1).trace = testState.trace ++
        [Eff.radioSend (modeFrame 1 (testState.command_buf.drop 11)) COMMAND_BUF_LEN
          RECEIVER_ADDRESS true,
         Eff.dwrite GREEN_LED_PIN true, Eff.dwrite ORANGE_LED_PIN false,
         Eff.delayMs 200,
         Eff.dwrite GREEN_LED_PIN false, Eff.dwrite ORANGE_LED_PIN false]) ∧
     ((fun _ => true) testState.sends.length = false →
       (sendButton (fun _ => true) testState 1).trace = testState.trace ++
        [Eff.radioSend (modeFrame 1 (testState.command_buf.drop 11)) COMMAND_BUF_LEN
          RECEIVER_ADDRESS false,
         Eff.dwrite GREEN_LED_PIN false, Eff.dwrite ORANGE_LED_PIN true,
         Eff.delayMs 200,
         Eff.dwrite GREEN_LED_PIN false, Eff.dwrite ORANGE_LED_PIN false])) :=
  ⟨by decide, C8_indicator_pulses (fun _ => true) testState 1 506 (by decide)⟩

end GardenLights

namespace GardenLights

/-- Claim C1: for every pot-change event on a channel, exactly one 16-byte
frame — `"POTS "` at offset 0, the channel right-justified space-padded in
the 5 bytes at offset 5, the new raw value right-justified space-padded in
the 5 bytes at offset 10, and the trailing NUL — is handed to the
transport, addressed to destination id 2 with length 16. -/
theorem C1_pot_change_frame (o : Nat → Bool) (s : ProgState) (inp : LoopInputs)
    (h16 : s.command_buf.length = 16)
    (hb1 : (debStep s.deb1 inp.btn1).2 = false)
    (hb2 : (debStep s.deb2 inp.btn2).2 = false) :
    (POTS_EPS < cAbs (inp.read1 - s.channel_one_pot_value) →
      ¬ POTS_EPS < cAbs (inp.read2 - s.channel_two_pot_value) →
      (loopStep o s inp).sends = s.sends ++
        [⟨fmt5s POTS_TEXT ++ fmt5i 1 ++ fmt5i inp.read1 ++ [0],
          COMMAND_BUF_LEN, RECEIVER_ADDRESS⟩]) ∧
    (¬ POTS_EPS < cAbs (inp.read1 - s.channel_one_pot_value) →
      POTS_EPS < cAbs (inp.read2 - s.channel_two_pot_value) →
      (loopStep o s inp).sends = s.sends ++
        [⟨fmt5s POTS_TEXT ++ fmt5i 2 ++ fmt5i inp.read2 ++ [0],
          COMMAND_BUF_LEN, RECEIVER_ADDRESS⟩]) := by
  constructor <;> intro hp hq <;>
    rw [(loopStep_fields o s inp h16).1] <;>
      simp [hb1, hb2, hp, hq, potsFrame]

theorem C1_witness :
    (testState.command_buf.length = 16 ∧
     (debStep testState.deb1 true).2 = false ∧
     (debStep testState.deb2 true).2 = false ∧
     POTS_EPS < cAbs ((506 : Int) - testState.channel_one_pot_value) ∧
     ¬ POTS_EPS < cAbs ((300 : Int) - testState.channel_two_pot_value)) ∧
    (loopStep (fun _ => true) testState ⟨true, true, 506, 300⟩).sends =
      testState.sends ++
        [⟨fmt5s POTS_TEXT ++ fmt5i 1 ++ fmt5i 506 ++ [0],
          COMMAND_BUF_LEN, RECEIVER_ADDRESS⟩] :=
  ⟨⟨by decide, by decide, by decide, by decide, by decide⟩,
   (C1_pot_change_frame (fun _ => true) testState ⟨true, true, 506, 300⟩
      (by decide) (by decide) (by decide)).1 (by decide) (by decide)⟩

/-- Claim C2 (counterexample): on a fresh device, a debounced press of
button 1 does NOT produce the frame bytes `"MODE "+"    1"+"    0"`: the
single frame handed to the transport carries the NUL terminator of the
channel field at offset 10 and five more NUL bytes at offsets 11-15, not
the space-padded zero `"    0"` the claim asserts. -/
theorem C2_counterexample :
    deviceSends true true 500 300 (fun _ => true)
        (List.replicate 10 ⟨false, true, 500, 300⟩) =
      [⟨modeFrame 1 (List.replicate 5 0), COMMAND_BUF_LEN, RECEIVER_ADDRESS⟩] ∧
    (modeFrame 1 (List.replicate 5 0)).drop 10 = [0, 0, 0, 0, 0, 0] ∧
    fmt5i 0 = [32, 32, 32, 32, 48] ∧
    (modeFrame 1 (List.replicate 5 0)).take 15 ≠
      fmt5s MODE_TEXT ++ fmt5i 1 ++ fmt5i 0 := by
  set_option maxRecDepth 4000 in
  refine ⟨by decide, by decide, by decide, by decide⟩

/-- Claim C2 (amended): for every button-originated (MODE) frame, the value
field at offset 10 is left unwritten by the encoder: byte 10 is the NUL
terminator of the channel field and bytes 11-15 keep whatever the shared
buffer previously held (all NUL bytes on a fresh buffer).  A debounced
press of button 1 produces exactly one frame `"MODE "+"    1"` followed by
the NUL byte and the five stale bytes, and the transport is called once
with that frame, length 16, destination id 2. -/
theorem C2_mode_frame_amended (o : Nat → Bool) (s : ProgState) (inp : LoopInputs)
    (h16 : s.command_buf.length = 16)
    (hb1 : (debStep s.deb1 inp.btn1).2 = true)
    (hb2 : (debStep s.deb2 inp.btn2).2 = false)
    (hp1 : ¬ POTS_EPS < cAbs (inp.read1 - s.channel_one_pot_value))
    (hp2 : ¬ POTS_EPS < cAbs (inp.read2 - s.channel_two_pot_value)) :
    (loopStep o s inp).sends = s.sends ++
      [⟨modeFrame 1 (s.command_buf.drop 11), COMMAND_BUF_LEN, RECEIVER_ADDRESS⟩] ∧
    (modeFrame 1 (s.command_buf.drop 11)).take 10 = fmt5s MODE_TEXT ++ fmt5i 1 ∧
    (modeFrame 1 (s.command_buf.drop 11)).drop 10 = 0 :: s.command_buf.drop 11 := by
  refine ⟨?_, modeFrame_take10 1 _, modeFrame_drop10 1 _⟩
  rw [(loopStep_fields o s inp h16).1]
  simp [hb1, hb2, hp1, hp2]

theorem C2_amended_witness :
    (testStatePending.command_buf.length = 16 ∧
     (debStep testStatePending.deb1 false).2 = true ∧
     (debStep testStatePending.deb2 true).2 = false ∧
     ¬ POTS_EPS < cAbs ((500 : Int) - testStatePending.channel_one_pot_value) ∧
     ¬ POTS_EPS < cAbs ((300 : Int) - testStatePending.channel_two_pot_value)) ∧
    ((loopStep (fun _ => false) testStatePending ⟨false, true, 500, 300⟩).sends =
       testStatePending.sends ++
        [⟨modeFrame 1 (testStatePending.command_buf.drop 11),
          COMMAND_BUF_LEN, RECEIVER_ADDRESS⟩] ∧
     (modeFrame 1 (testStatePending.command_buf.drop 11)).take 10 =
       fmt5s MODE_TEXT ++ fmt5i 1 ∧
     (modeFrame 1 (testStatePending.command_buf.drop 11)).drop 10 =
       0 :: testStatePending.command_buf.drop 11) :=
  ⟨⟨by decide, by decide, by decide, by decide, by decide⟩,
   C2_mode_frame_amended (fun _ => false) testStatePending ⟨false, true, 500, 300⟩
     (by decide) (by decide) (by decide) (by decide) (by decide)⟩

end GardenLights

namespace GardenLights

/-- Claim C3: for every channel, a pot poll emits a PotChanged event
(that is, appends one POTS frame for that channel) iff the absolute
difference between the new reading and the channel's last-reported value
strictly exceeds the threshold 4; when it emits, the frame carries the raw
reading and the channel's baseline is updated to it; otherwise the
baseline is unchanged, and readings that stay within the band across any
number of polls never produce an event on that channel. -/
theorem C3_pot_hysteresis (o : Nat → Bool) (s : ProgState) (inp : LoopInputs)
    (h16 : s.command_buf.length = 16) :
    ((loopStep o s inp).sends.filter isPots1 = s.sends.filter isPots1 ++
       (if POTS_EPS < cAbs (inp.read1 - s.channel_one_pot_value) then
          [⟨potsFrame 1 inp.read1, COMMAND_BUF_LEN, RECEIVER_ADDRESS⟩] else [])) ∧
    ((loopStep o s inp).channel_one_pot_value =
       (if POTS_EPS < cAbs (inp.read1 - s.channel_one_pot_value) then inp.read1
        else s.channel_one_pot_value)) ∧
    (∀ inputs : List LoopInputs,
       (∀ i ∈ inputs, cAbs (i.read1 - s.channel_one_pot_value) ≤ POTS_EPS) →
       (inputs.foldl (loopStep o) s).channel_one_pot_value =
         s.channel_one_pot_value ∧
       (inputs.foldl (loopStep o) s).sends.filter isPots1 =
         s.sends.filter isPots1) ∧
    ((loopStep o s inp).sends.filter isPots2 = s.sends.filter isPots2 ++
       (if POTS_EPS < cAbs (inp.read2 - s.channel_two_pot_value) then
          [⟨potsFrame 2 inp.read2, COMMAND_BUF_LEN, RECEIVER_ADDRESS⟩] else [])) ∧
    ((loopStep o s inp).channel_two_pot_value =
       (if POTS_EPS < cAbs (inp.read2 - s.channel_two_pot_value) then inp.read2
        else s.channel_two_pot_value)) ∧
    (∀ inputs : List LoopInputs,
       (∀ i ∈ inputs, cAbs (i.read2 - s.channel_two_pot_value) ≤ POTS_EPS) →
       (inputs.foldl (loopStep o) s).channel_two_pot_value =
         s.channel_two_pot_value ∧
       (inputs.foldl (loopStep o) s).sends.filter isPots2 =
         s.sends.filter isPots2) :=
  ⟨loopStep_filterPots1 o s inp h16, (loopStep_fields o s inp h16).2.1,
   fun inputs hband => fold_osc_pot1 o inputs s h16 hband,
   loopStep_filterPots2 o s inp h16, (loopStep_fields o s inp h16).2.2.1,
   fun inputs hband => fold_osc_pot2 o inputs s h16 hband⟩

theorem C3_witness :
    testState.command_buf.length = 16 ∧
    ((loopStep failOracle testState ⟨true, true, 506, 320⟩).sends.filter isPots1 =
       testState.sends.filter isPots1 ++
       (if POTS_EPS < cAbs ((506 : Int) - testState.channel_one_pot_value) then
          [⟨potsFrame 1 506, COMMAND_BUF_LEN, RECEIVER_ADDRESS⟩] else [])) ∧
    ((loopStep failOracle testState ⟨true, true, 506, 320⟩).channel_one_pot_value =
       (if POTS_EPS < cAbs ((506 : Int) - testState.channel_one_pot_value) then 506
        else testState.channel_one_pot_value)) ∧
    ((loopStep failOracle testState ⟨true, true, 506, 320⟩).sends.filter isPots2 =
       testState.sends.filter isPots2 ++
       (if POTS_EPS < cAbs ((320 : Int) - testState.channel_two_pot_value) then
          [⟨potsFrame 2 320, COMMAND_BUF_LEN, RECEIVER_ADDRESS⟩] else [])) ∧
    ((loopStep failOracle testState ⟨true, true, 506, 320⟩).channel_two_pot_value =
       (if POTS_EPS < cAbs ((320 : Int) - testState.channel_two_pot_value) then 320
        else testState.channel_two_pot_value)) :=
  ⟨by decide,
   (C3_pot_hysteresis failOracle testState ⟨true, true, 506, 320⟩ (by decide)).1,
   (C3_pot_hysteresis failOracle testState ⟨true, true, 506, 320⟩ (by decide)).2.1,
   (C3_pot_hysteresis failOracle testState ⟨true, true, 506, 320⟩
      (by decide)).2.2.2.1,
   (C3_pot_hysteresis failOracle testState ⟨true, true, 506, 320⟩
      (by decide)).2.2.2.2.1⟩

/-- Claim C7: in every loop iteration the detected events are encoded and
delivered strictly sequentially in the fixed order channel-1 button,
channel-2 button, channel-1 pot, channel-2 pot (buttons before pots): the
transport-call list grows by exactly these records, in this order, one
completed call per event. -/
theorem C7_sequential_order (o : Nat → Bool) (s : ProgState) (inp : LoopInputs)
    (h16 : s.command_buf.length = 16) :
    (loopStep o s inp).sends = s.sends
      ++ (if (debStep s.deb1 inp.btn1).2 then
            [⟨modeFrame 1 (s.command_buf.drop 11), COMMAND_BUF_LEN,
              RECEIVER_ADDRESS⟩] else [])
      ++ (if (debStep s.deb2 inp.btn2).2 then
            [⟨modeFrame 2 (s.command_buf.drop 11), COMMAND_BUF_LEN,
              RECEIVER_ADDRESS⟩] else [])
      ++ (if POTS_EPS < cAbs (inp.read1 - s.channel_one_pot_value) then
            [⟨potsFrame 1 inp.read1, COMMAND_BUF_LEN, RECEIVER_ADDRESS⟩] else [])
      ++ (if POTS_EPS < cAbs (inp.read2 - s.channel_two_pot_value) then
            [⟨potsFrame 2 inp.read2, COMMAND_BUF_LEN, RECEIVER_ADDRESS⟩] else []) :=
  (loopStep_fields o s inp h16).1

theorem C7_witness :
    testStatePending.command_buf.length = 16 ∧
    (loopStep failOracle testStatePending ⟨false, true, 500, 400⟩).sends =
      testStatePending.sends
      ++ (if (debStep testStatePending.deb1 false).2 then
            [⟨modeFrame 1 (testStatePending.command_buf.drop 11), COMMAND_BUF_LEN,
              RECEIVER_ADDRESS⟩] else [])
      ++ (if (debStep testStatePending.deb2 true).2 then
            [⟨modeFrame 2 (testStatePending.command_buf.drop 11), COMMAND_BUF_LEN,
              RECEIVER_ADDRESS⟩] else [])
      ++ (if POTS_EPS < cAbs ((500 : Int) - testStatePending.channel_one_pot_value) then
            [⟨potsFrame 1 500, COMMAND_BUF_LEN, RECEIVER_ADDRESS⟩] else [])
      ++ (if POTS_EPS < cAbs ((400 : Int) - testStatePending.channel_two_pot_value) then
            [⟨potsFrame 2 400, COMMAND_BUF_LEN, RECEIVER_ADDRESS⟩] else []) :=
  ⟨by decide,
   C7_sequential_order failOracle testStatePending ⟨false, true, 500, 400⟩ (by decide)⟩

/-- Claim C9: for every pot-change event on either channel, the channel's
baseline is set to the new raw reading no matter what the delivery
outcome is (the oracle is universally quantified, so a Failed delivery
keeps it too), the frame sent carries exactly that reading, and a
subsequent poll whose reading is within the threshold band of the failed
value appends no new POTS frame for that channel: the failed value is
never re-sent. -/
theorem C9_no_resend_after_failure (o o2 : Nat → Bool) (s : ProgState)
    (inp inp2 : LoopInputs) (h16 : s.command_buf.length = 16) :
    (POTS_EPS < cAbs (inp.read1 - s.channel_one_pot_value) →
      (loopStep o s inp).channel_one_pot_value = inp.read1 ∧
      (loopStep o s inp).sends.filter isPots1 = s.sends.filter isPots1 ++
        [⟨potsFrame 1 inp.read1, COMMAND_BUF_LEN, RECEIVER_ADDRESS⟩] ∧
      (cAbs (inp2.read1 - inp.read1) ≤ POTS_EPS →
        (loopStep o2 (loopStep o s inp) inp2).sends.filter isPots1 =
          (loopStep o s inp).sends.filter isPots1)) ∧
    (POTS_EPS < cAbs (inp.read2 - s.channel_two_pot_value) →
      (loopStep o s inp).channel_two_pot_value = inp.read2 ∧
      (loopStep o s inp).sends.filter isPots2 = s.sends.filter isPots2 ++
        [⟨potsFrame 2 inp.read2, COMMAND_BUF_LEN, RECEIVER_ADDRESS⟩] ∧
      (cAbs (inp2.read2 - inp.read2) ≤ POTS_EPS →
        (loopStep o2 (loopStep o s inp) inp2).sends.filter isPots2 =
          (loopStep o s inp).sends.filter isPots2)) := by
  constructor
  · intro hp
    have hc1 : (loopStep o s inp).channel_one_pot_value = inp.read1 := by
      rw [(loopStep_fields o s inp h16).2.1, if_pos hp]
    refine ⟨hc1, ?_, ?_⟩
    · rw [loopStep_filterPots1 o s inp h16, if_pos hp]
    · intro hband
      rw [loopStep_filterPots1 o2 _ inp2 (loopStep_buflen o s inp h16),
        hc1, if_neg (not_lt.mpr hband)]
      simp
  · intro hp
    have hc2 : (loopStep o s inp).channel_two_pot_value = inp.read2 := by
      rw [(loopStep_fields o s inp h16).2.2.1, if_pos hp]
    refine ⟨hc2, ?_, ?_⟩
    · rw [loopStep_filterPots2 o s inp h16, if_pos hp]
    · intro hband
      rw [loopStep_filterPots2 o2 _ inp2 (loopStep_buflen o s inp h16),
        hc2, if_neg (not_lt.mpr hband)]
      simp

theorem C9_witness :
    (testState.command_buf.length = 16 ∧
     POTS_EPS < cAbs ((506 : Int) - testState.channel_one_pot_value) ∧
     cAbs ((508 : Int) - (506 : Int)) ≤ POTS_EPS ∧
     POTS_EPS < cAbs ((320 : Int) - testState.channel_two_pot_value) ∧
     cAbs ((318 : Int) - (320 : Int)) ≤ POTS_EPS) ∧
    ((loopStep failOracle testState ⟨true, true, 506, 320⟩).channel_one_pot_value =
       506 ∧
     (loopStep failOracle (loopStep failOracle testState ⟨true, true, 506, 320⟩)
         ⟨true, true, 508, 318⟩).sends.filter isPots1 =
       (loopStep failOracle testState ⟨true, true, 506, 320⟩).sends.filter isPots1 ∧
     (loopStep failOracle testState ⟨true, true, 506, 320⟩).channel_two_pot_value =
       320 ∧
     (loopStep failOracle (loopStep failOracle testState ⟨true, true, 506, 320⟩)
         ⟨true, true, 508, 318⟩).sends.filter isPots2 =
       (loopStep failOracle testState ⟨true, true, 506, 320⟩).sends.filter isPots2) :=
  ⟨⟨by decide, by decide, by decide, by decide, by decide⟩,
   ((C9_no_resend_after_failure failOracle failOracle testState
      ⟨true, true, 506, 320⟩ ⟨true, true, 508, 318⟩ (by decide)).1 (by decide)).1,
   ((C9_no_resend_after_failure failOracle failOracle testState
      ⟨true, true, 506, 320⟩ ⟨true, true, 508, 318⟩ (by decide)).1 (by decide)).2.2
     (by decide),
   ((C9_no_resend_after_failure failOracle failOracle testState
      ⟨true, true, 506, 320⟩ ⟨true, true, 508, 318⟩ (by decide)).2 (by decide)).1,
   ((C9_no_resend_after_failure failOracle failOracle testState
      ⟨true, true, 506, 320⟩ ⟨true, true, 508, 318⟩ (by decide)).2 (by decide)).2.2
     (by decide)⟩

end GardenLights

namespace GardenLights

/-- Claim C4: a raw level change produces a fell event only after the new
level has been observed continuously for the ten-unit stabilization
interval (part 1: any trace producing an event contains ten consecutive
LOW samples, so a signal toggling faster than the interval never fires);
exactly once per accepted released-to-pressed transition and not once per
poll while held (part 2); and never on release (part 3). -/
theorem C4_debounce :
    (∀ l : List Bool, 1 ≤ (debRun debInit l).2 →
       ∃ l1 l2, l = l1 ++ List.replicate DEBOUNCE_INTERVAL false ++ l2) ∧
    (∀ k m : Nat, DEBOUNCE_INTERVAL ≤ m →
       (debRun debInit (List.replicate k true ++ List.replicate m false)).2 = 1) ∧
    (∀ c m : Nat,
       (debRun ⟨false, false, c⟩ (List.replicate m true)).2 = 0) := by
  refine ⟨?_, ?_, ?_⟩
  · intro l h
    obtain ⟨l1, l2, hl⟩ := debRun_event_run l debInit []
      (by exact ⟨[], by simp [debInit]⟩) h
    exact ⟨l1, l2, by simpa using hl⟩
  · intro k m hm
    rw [debRun_append]
    have h1 : debRun debInit (List.replicate k true) = (⟨true, true, 0 + k⟩, 0) :=
      debRun_stable true 0 k
    rw [h1]
    rcases m with - | m2
    · simp [DEBOUNCE_INTERVAL] at hm
    · rw [List.replicate_succ]
      simp only [debRun]
      have hstep : debStep ⟨true, true, 0 + k⟩ false = (⟨true, false, 1⟩, false) := by
        simp [debStep]
      rw [hstep]
      have hp := debRun_pending true m2 1 (by norm_num [DEBOUNCE_INTERVAL])
      simp only [Bool.not_true] at hp
      have hnlt : ¬ 1 + m2 < DEBOUNCE_INTERVAL := by
        unfold DEBOUNCE_INTERVAL at hm ⊢
        omega
      simp [hp, hnlt]
  · intro c m
    rcases m with - | m2
    · simp [debRun]
    · rw [List.replicate_succ]
      simp only [debRun]
      have hstep : debStep ⟨false, false, c⟩ true = (⟨false, true, 1⟩, false) := by
        simp [debStep]
      rw [hstep]
      have hp := debRun_pending false m2 1 (by norm_num [DEBOUNCE_INTERVAL])
      simp only [Bool.not_false] at hp
      simp only [hp]
      split
      · simp_all
      · split <;> simp

theorem C4_witness :
    (1 ≤ (debRun debInit (List.replicate 10 false)).2 ∧
     DEBOUNCE_INTERVAL ≤ 10) ∧
    ((∃ l1 l2, List.replicate 10 false =
        l1 ++ List.replicate DEBOUNCE_INTERVAL false ++ l2) ∧
     (debRun debInit (List.replicate 1 true ++ List.replicate 10 false)).2 = 1 ∧
     (debRun ⟨false, false, 0⟩ (List.replicate 12 true)).2 = 0) :=
  ⟨⟨by decide, by decide⟩,
   C4_debounce.1 (List.replicate 10 false) (by decide),
   C4_debounce.2.1 1 10 (by decide),
   C4_debounce.2.2 0 12⟩

/-- Claim C5: a failed delivery never halts the program.  Each
`sendCommand` makes exactly one blocking `sendtoWait` call (no retry loop
of its own); with the always-failing collaborator every recorded outcome
in the trace is a failure, yet the loop keeps running over the whole input
list; and the input-sampling state after any run under the always-failing
collaborator is identical to the run under any other collaborator, so
failures never corrupt subsequent sampling. -/
theorem C5_failure_resilience :
    (∀ (o : Nat → Bool) (s : ProgState) (f : Bool),
       (sendCommand o s f).sends.length = s.sends.length + 1) ∧
    (∀ (s : ProgState) (inputs : List LoopInputs), allFailed s →
       allFailed (inputs.foldl (loopStep failOracle) s)) ∧
    (∀ (o : Nat → Bool) (inputs : List LoopInputs) (s : ProgState),
       s.command_buf.length = 16 →
       samplingOf (inputs.foldl (loopStep failOracle) s) =
         samplingOf (inputs.foldl (loopStep o) s)) := by
  refine ⟨?_, ?_, ?_⟩
  · intro o s f
    rw [sendCommand_sends]
    simp
  · intro s inputs h
    exact fold_allFailed inputs s h
  · intro o inputs s h
    exact fold_sampling_oracle failOracle o inputs s s rfl h h

theorem C5_witness :
    (allFailed testState ∧ testState.command_buf.length = 16) ∧
    ((sendCommand failOracle testState false).sends.length =
       testState.sends.length + 1 ∧
     allFailed ([⟨false, true, 500, 300⟩].foldl (loopStep failOracle) testState) ∧
     samplingOf ([⟨false, true, 500, 300⟩].foldl (loopStep failOracle) testState) =
       samplingOf ([⟨false, true, 500, 300⟩].foldl (loopStep (fun _ => true))
         testState)) :=
  ⟨⟨by simp [allFailed, testState, sendOks], by decide⟩,
   C5_failure_resilience.1 failOracle testState false,
   C5_failure_resilience.2.1 testState [⟨false, true, 500, 300⟩]
     (by simp [allFailed, testState, sendOks]),
   C5_failure_resilience.2.2 (fun _ => true) [⟨false, true, 500, 300⟩] testState
     (by decide)⟩

end GardenLights
